import Mathlib

/- Shallow embedding of the ingestion and admin-authentication core of
   jsquales/fluencyindex_site (src/app/main.py together with the ORM schema in
   src/app/db.py).

   Conventions: machine integers are modelled as Nat/Int (the endpoints bound
   them far below any overflow); wall-clock times (Python floats used only for
   addition of constants and for comparisons) are modelled as Rat; fallible
   operations return Option; the database tables touched by the handlers are
   modelled as lists of row structures, with the SQL of each handler transcribed
   statement by statement. -/

set_option maxHeartbeats 1000000

namespace FluencySite

/-- Python truthiness of an `Optional[str]` value: `None` and the empty string
are both falsy. main.py guards its dedup lookups with
`if payload.client_attempt_id:` and the device filter with `if device_id:`,
which tests exactly this. -/
def optStrTruthy : Option String → Bool
  | none => false
  | some s => s != ""

/- ------------------------------------------------------------------ -/
/- Attempts ingestion: POST /api/v1/attempts (main.py:422-479)         -/
/- ------------------------------------------------------------------ -/

/-- Request body of POST /api/v1/attempts (class AttemptIn, main.py:163-173). -/
structure AttemptIn where
  client_attempt_id : Option String
  created_from : Option String
  session_id : Nat
  student_id : Nat
  question : Option String
  answer_given : Option String
  is_correct : Option Bool
  response_ms : Option Nat
  duration_seconds : Option Nat
  score : Option ℚ
deriving DecidableEq

/-- A row of the attempts table as written by the INSERT in create_attempt
(main.py:441-472). -/
structure AttemptRow where
  id : Nat
  session_id : Nat
  student_id : Nat
  question : Option String
  answer_given : Option String
  is_correct : Option Bool
  response_ms : Option Nat
  duration_seconds : Option Nat
  score : Option ℚ
  client_attempt_id : Option String
  created_from : Option String
deriving DecidableEq

/-- The attempts table plus the id sequence backing its primary key. -/
structure AttemptsState where
  rows : List AttemptRow
  nextId : Nat
deriving DecidableEq

inductive AttemptStatus
  | ok
  | duplicate
deriving DecidableEq

structure AttemptResponse where
  status : AttemptStatus
  attempt_id : Nat
deriving DecidableEq

def attemptRowMatchesKey (key : String) (r : AttemptRow) : Bool :=
  r.client_attempt_id == some key

/-- The dedup SELECT of create_attempt (main.py:426-439):
`SELECT id FROM attempts WHERE client_attempt_id = :k LIMIT 1`, executed only
when `payload.client_attempt_id` is truthy. -/
def attemptDedupLookup (rows : List AttemptRow) (p : AttemptIn) : Option Nat :=
  if optStrTruthy p.client_attempt_id then
    (rows.find? (attemptRowMatchesKey (p.client_attempt_id.getD ""))).map (fun r => r.id)
  else none

def attemptRowOf (i : Nat) (p : AttemptIn) : AttemptRow :=
  ⟨i, p.session_id, p.student_id, p.question, p.answer_given, p.is_correct,
   p.response_ms, p.duration_seconds, p.score, p.client_attempt_id, p.created_from⟩

/-- The INSERT ... RETURNING id of create_attempt (main.py:441-472). -/
def attemptInsert (st : AttemptsState) (p : AttemptIn) : Nat × AttemptsState :=
  (st.nextId, ⟨st.rows ++ [attemptRowOf st.nextId p], st.nextId + 1⟩)

/-- The POST /api/v1/attempts handler (main.py:422-479): an application-level
dedup SELECT followed by an unconditional INSERT. -/
def create_attempt (st : AttemptsState) (p : AttemptIn) : AttemptResponse × AttemptsState :=
  match attemptDedupLookup st.rows p with
  | some i => (⟨AttemptStatus.duplicate, i⟩, st)
  | none =>
    let ins := attemptInsert st p
    (⟨AttemptStatus.ok, ins.1⟩, ins.2)

def countAttemptKey (rows : List AttemptRow) (key : String) : Nat :=
  (rows.filter (attemptRowMatchesKey key)).length

/-- One interleaved execution of two concurrent create_attempt requests in
which both dedup SELECTs run against the same committed state before either
INSERT commits (each handler uses its own SessionLocal connection and commits
at the end, so under read-committed isolation both SELECTs can observe the
pre-state; nothing in the attempts schema stops the second INSERT). -/
def raceCreateAttempt (st : AttemptsState) (p q : AttemptIn) :
    AttemptResponse × AttemptResponse × AttemptsState :=
  let lookup1 := attemptDedupLookup st.rows p
  let lookup2 := attemptDedupLookup st.rows q
  match lookup1 with
  | some i =>
    match lookup2 with
    | some j => (⟨AttemptStatus.duplicate, i⟩, ⟨AttemptStatus.duplicate, j⟩, st)
    | none =>
      let ins := attemptInsert st q
      (⟨AttemptStatus.duplicate, i⟩, ⟨AttemptStatus.ok, ins.1⟩, ins.2)
  | none =>
    let ins1 := attemptInsert st p
    match lookup2 with
    | some j => (⟨AttemptStatus.ok, ins1.1⟩, ⟨AttemptStatus.duplicate, j⟩, ins1.2)
    | none =>
      let ins2 := attemptInsert ins1.2 q
      (⟨AttemptStatus.ok, ins1.1⟩, ⟨AttemptStatus.ok, ins2.1⟩, ins2.2)

/- ------------------------------------------------------------------ -/
/- The ORM schema of the attempts table (db.py:201-221)                -/
/- ------------------------------------------------------------------ -/

structure ColumnSpec where
  name : String
  uniqueColumn : Bool
deriving DecidableEq

structure TableSpec where
  name : String
  columns : List ColumnSpec
  uniqueConstraints : List (List String)
deriving DecidableEq

/-- The attempts table as declared by the ORM (class Attempt, db.py:201-221):
integer primary key id, foreign keys, nullable payload columns. The model
declares no UniqueConstraint table args and no unique=True column; it does not
even declare a client_attempt_id column (the raw SQL in main.py writes one). -/
def attemptsTable : TableSpec :=
  ⟨"attempts",
   [⟨"id", true⟩, ⟨"session_id", false⟩, ⟨"student_id", false⟩,
    ⟨"prompt_text", false⟩, ⟨"transcript_text", false⟩, ⟨"question", false⟩,
    ⟨"answer_given", false⟩, ⟨"is_correct", false⟩, ⟨"mode", false⟩,
    ⟨"response_ms", false⟩, ⟨"score", false⟩, ⟨"duration_seconds", false⟩,
    ⟨"created_at", false⟩],
   []⟩

/-- Whether the schema enforces uniqueness of a single column, either as a
unique/primary-key column or through a one-column UniqueConstraint. -/
def hasUniqueConstraintOn (t : TableSpec) (c : String) : Bool :=
  t.columns.any (fun col => col.name == c && col.uniqueColumn) ||
  t.uniqueConstraints.any (fun uc => uc == [c])

/- ------------------------------------------------------------------ -/
/- Math-rush sessions: /api/v1/mr/session/start and /end               -/
/- (main.py:482-540); table mr_sessions                                -/
/- ------------------------------------------------------------------ -/

/-- Request body of POST /api/v1/mr/session/start (class MRSessionStartIn,
main.py:176-182). -/
structure MRSessionStartIn where
  device_id : String
  client_session_id : Nat
  mode : Option String
  difficulty : Option String
  count_target : Option Nat
  started_at_ms : Option Nat
deriving DecidableEq

/-- Request body of POST /api/v1/mr/session/end (class MRSessionEndIn,
main.py:185-192). -/
structure MRSessionEndIn where
  device_id : String
  client_session_id : Nat
  ended_at_ms : Option Nat
  attempted : Option Nat
  correct : Option Nat
  avg_ms : Option Nat
  duration_s : Option Nat
deriving DecidableEq

/-- A row of the mr_sessions table (all columns touched by main.py). -/
structure MRSessionRow where
  device_id : String
  client_session_id : Nat
  mode : Option String
  difficulty : Option String
  count_target : Option Nat
  started_at_ms : Option Nat
  ended_at_ms : Option Nat
  attempted : Option Nat
  correct : Option Nat
  avg_ms : Option Nat
  duration_s : Option Nat
deriving DecidableEq

inductive MRStatus
  | ok
deriving DecidableEq

/-- The WHERE / ON CONFLICT key of mr_sessions: (device_id, client_session_id). -/
def sessionMatches (dev : String) (csid : Nat) (r : MRSessionRow) : Bool :=
  r.device_id == dev && r.client_session_id == csid

/-- SQL COALESCE of the incoming (EXCLUDED) value with the stored one. -/
def coalesceOpt {α : Type} : Option α → Option α → Option α
  | some a, _ => some a
  | none, b => b

def newSessionRow (p : MRSessionStartIn) : MRSessionRow :=
  ⟨p.device_id, p.client_session_id, p.mode, p.difficulty, p.count_target,
   p.started_at_ms, none, none, none, none, none⟩

/-- The DO UPDATE SET arm of the session-start upsert (main.py:495-500):
every optional field becomes COALESCE(EXCLUDED.field, mr_sessions.field). -/
def mergeSessionStart (r : MRSessionRow) (p : MRSessionStartIn) : MRSessionRow :=
  { r with
    mode := coalesceOpt p.mode r.mode
    difficulty := coalesceOpt p.difficulty r.difficulty
    count_target := coalesceOpt p.count_target r.count_target
    started_at_ms := coalesceOpt p.started_at_ms r.started_at_ms }

/-- POST /api/v1/mr/session/start (main.py:482-511):
INSERT ... ON CONFLICT (device_id, client_session_id) DO UPDATE with the
COALESCE merge; always answers status ok. -/
def mr_session_start (db : List MRSessionRow) (p : MRSessionStartIn) :
    MRStatus × List MRSessionRow :=
  if db.any (sessionMatches p.device_id p.client_session_id) then
    (MRStatus.ok, db.map fun r =>
      if sessionMatches p.device_id p.client_session_id r then mergeSessionStart r p else r)
  else
    (MRStatus.ok, db ++ [newSessionRow p])

/-- The SET clause of the session-end UPDATE (main.py:521-527): the five
summary fields are overwritten with the supplied values, nulls included. -/
def overwriteSessionEnd (r : MRSessionRow) (p : MRSessionEndIn) : MRSessionRow :=
  { r with
    ended_at_ms := p.ended_at_ms
    attempted := p.attempted
    correct := p.correct
    avg_ms := p.avg_ms
    duration_s := p.duration_s }

/-- POST /api/v1/mr/session/end (main.py:514-540): a plain UPDATE on the
(device_id, client_session_id) key; zero matched rows is not an error and the
handler always answers status ok. -/
def mr_session_end (db : List MRSessionRow) (p : MRSessionEndIn) :
    MRStatus × List MRSessionRow :=
  (MRStatus.ok, db.map fun r =>
    if sessionMatches p.device_id p.client_session_id r then overwriteSessionEnd r p else r)

/- ------------------------------------------------------------------ -/
/- Question events: POST /api/v1/mr/question (main.py:543-602)         -/
/- ------------------------------------------------------------------ -/

/-- Request body of POST /api/v1/mr/question (class MRQuestionIn,
main.py:195-204). -/
structure MRQuestionIn where
  device_id : String
  client_session_id : Nat
  a : Option Nat
  b : Option Nat
  user_answer : Option Int
  correct : Option Bool
  elapsed_ms : Option Nat
  timestamp_ms : Option Nat
  client_attempt_id : Option String
deriving DecidableEq

/-- A row of the mr_question_events table. -/
structure MRQuestionRow where
  id : Nat
  device_id : String
  client_session_id : Nat
  a : Option Nat
  b : Option Nat
  user_answer : Option Int
  correct : Option Bool
  elapsed_ms : Option Nat
  timestamp_ms : Option Nat
  client_attempt_id : Option String
deriving DecidableEq

structure MRQuestionState where
  rows : List MRQuestionRow
  nextId : Nat
deriving DecidableEq

inductive MRQuestionResponse
  | ok (id : Nat)
  | duplicate
deriving DecidableEq

def questionRowMatchesKey (dev key : String) (r : MRQuestionRow) : Bool :=
  r.device_id == dev && r.client_attempt_id == some key

/-- The dedup SELECT of mr_question (main.py:547-564): keyed on
device_id AND client_attempt_id, executed only when the key is truthy. -/
def questionDedupLookup (rows : List MRQuestionRow) (p : MRQuestionIn) :
    Option MRQuestionRow :=
  if optStrTruthy p.client_attempt_id then
    rows.find? (questionRowMatchesKey p.device_id (p.client_attempt_id.getD ""))
  else none

def questionRowOf (i : Nat) (p : MRQuestionIn) : MRQuestionRow :=
  ⟨i, p.device_id, p.client_session_id, p.a, p.b, p.user_answer, p.correct,
   p.elapsed_ms, p.timestamp_ms, p.client_attempt_id⟩

/-- POST /api/v1/mr/question (main.py:543-602): dedup SELECT scoped by
(device_id, client_attempt_id), then INSERT ... RETURNING id. A duplicate
answers status duplicate with no id. -/
def mr_question (st : MRQuestionState) (p : MRQuestionIn) :
    MRQuestionResponse × MRQuestionState :=
  match questionDedupLookup st.rows p with
  | some _ => (MRQuestionResponse.duplicate, st)
  | none =>
    (MRQuestionResponse.ok st.nextId,
     ⟨st.rows ++ [questionRowOf st.nextId p], st.nextId + 1⟩)

/- ------------------------------------------------------------------ -/
/- Login throttle (main.py:32-36, 86-114)                              -/
/- ------------------------------------------------------------------ -/

def LOGIN_WINDOW_SECONDS : ℚ := 15 * 60

def LOGIN_BLOCK_SECONDS : ℚ := 15 * 60

def LOGIN_MAX_FAILURES : Nat := 8

/-- The per-key record kept in _login_attempts: failure timestamps and the
block expiry (0.0 meaning not blocked, matching the Python float default). -/
structure LoginEntry where
  fails : List ℚ
  blocked_until : ℚ
deriving DecidableEq

/-- The process-wide _login_attempts dict, as an insertion-ordered
association list (Python dicts preserve insertion order; updates in place). -/
abbrev ThrottleMap := List (String × LoginEntry)

def throttleGet (m : ThrottleMap) (ip : String) : Option LoginEntry :=
  (m.find? fun e => e.1 == ip).map fun e => e.2

def throttleSet (m : ThrottleMap) (ip : String) (v : LoginEntry) : ThrottleMap :=
  if m.any (fun e => e.1 == ip) then
    m.map fun e => if e.1 == ip then (ip, v) else e
  else m ++ [(ip, v)]

def throttleRemove (m : ThrottleMap) (ip : String) : ThrottleMap :=
  m.filter fun e => e.1 != ip

/-- _is_login_blocked (main.py:86-97): true iff blocked_until lies strictly in
the future; a past-due nonzero blocked_until is zeroed as a side effect. -/
def isLoginBlocked (m : ThrottleMap) (ip : String) (now : ℚ) : Bool × ThrottleMap :=
  match throttleGet m ip with
  | none => (false, m)
  | some entry =>
    if now < entry.blocked_until then (true, m)
    else if entry.blocked_until ≠ 0 then (false, throttleSet m ip ⟨entry.fails, 0⟩)
    else (false, m)

/-- _record_login_failure (main.py:100-110): prune timestamps older than the
trailing window, append now, and set blocked_until when the count reaches the
threshold. -/
def recordLoginFailure (m : ThrottleMap) (ip : String) (now : ℚ) : ThrottleMap :=
  let entry := (throttleGet m ip).getD ⟨[], 0⟩
  let fails := (entry.fails.filter fun ts => decide (now - LOGIN_WINDOW_SECONDS ≤ ts)) ++ [now]
  let blocked :=
    if LOGIN_MAX_FAILURES ≤ fails.length then now + LOGIN_BLOCK_SECONDS
    else entry.blocked_until
  throttleSet m ip ⟨fails, blocked⟩

/-- _clear_login_failures (main.py:112-114): drop the key's record entirely. -/
def clearLoginFailures (m : ThrottleMap) (ip : String) : ThrottleMap :=
  throttleRemove m ip

/- ------------------------------------------------------------------ -/
/- Admin session token (main.py:39-63)                                 -/
/- ------------------------------------------------------------------ -/

def ADMIN_SESSION_MAX_AGE_SECONDS : ℚ := 60 * 60 * 24 * 7

/-- The environment configuration read by the admin-auth code. -/
structure AdminEnv where
  admin_username : Option String
  admin_password_hash : Option String
  session_secret_key : Option String
deriving DecidableEq

/-- The deserialized token payload: main.py only ever signs the dict
with the single field u, but verification must also tolerate a signed
non-dict value or a dict without a string u (main.py:62). -/
inductive TokenPayload
  | dict (u : Option String)
  | nonDict
deriving DecidableEq

/-- A message-authentication tag over (secret, salt, payload, timestamp). -/
structure MacTag where
  secret : String
  salt : String
  payload : TokenPayload
  timestamp : ℚ
deriving DecidableEq

/-- Modelled from the spec: the signing primitive (the itsdangerous
URLSafeTimedSerializer used at main.py:39-63) is an external library, not code
of this repository. Per spec section 4.4 the token carries a signature keyed by
the server secret and a fixed purpose salt over the serialized payload and the
issue time; it is modelled as a perfect MAC whose tag is determined by, and
determines, the tuple (secret, salt, payload, timestamp). -/
def macSign (secret salt : String) (payload : TokenPayload) (t : ℚ) : MacTag :=
  ⟨secret, salt, payload, t⟩

structure SignedToken where
  payload : TokenPayload
  issued_at : ℚ
  sig : MacTag
deriving DecidableEq

/-- Modelled from the spec: serializer.dumps signs the payload together with
the current time. -/
def serializerDumps (secret : String) (payload : TokenPayload) (now : ℚ) : SignedToken :=
  ⟨payload, now, macSign secret "admin-session" payload now⟩

/-- Modelled from the spec: serializer.loads with max_age recomputes and
checks the signature, then checks the age; SignatureExpired is a subclass of
BadSignature, so both failures surface identically as none. -/
def serializerLoads (secret : String) (max_age : ℚ) (tok : SignedToken) (now : ℚ) :
    Option TokenPayload :=
  if tok.sig = macSign secret "admin-session" tok.payload tok.issued_at then
    if now - tok.issued_at ≤ max_age then some tok.payload else none
  else none

/-- _admin_session_serializer (main.py:39-43): None unless SESSION_SECRET_KEY
is truthy; the serializer is keyed by that secret with salt admin-session. -/
def adminSessionSerializerKey (env : AdminEnv) : Option String :=
  if optStrTruthy env.session_secret_key then env.session_secret_key else none

/-- create_admin_session_token (main.py:46-50). -/
def create_admin_session_token (env : AdminEnv) (username : String) (now : ℚ) :
    Option SignedToken :=
  match adminSessionSerializerKey env with
  | none => none
  | some secret => some (serializerDumps secret (TokenPayload.dict (some username)) now)

/-- verify_admin_session_token (main.py:53-63): requires a configured secret
and expected username, loads with the 7-day max-age, and compares the payload
field u to the expected username; every failure path returns false. -/
def verify_admin_session_token (env : AdminEnv) (tok : SignedToken) (now : ℚ) : Bool :=
  match adminSessionSerializerKey env with
  | none => false
  | some secret =>
    if !optStrTruthy env.admin_username then false
    else
      match serializerLoads secret ADMIN_SESSION_MAX_AGE_SECONDS tok now with
      | none => false
      | some (TokenPayload.dict (some u)) => u == env.admin_username.getD ""
      | some _ => false

/- ------------------------------------------------------------------ -/
/- Admin login handler: POST /admin/login (main.py:266-321)            -/
/- ------------------------------------------------------------------ -/

inductive LoginResult
  | tooMany
  | unauthorized
  | notConfigured
  | success (tok : SignedToken)
deriving DecidableEq

/-- The POST /admin/login handler (main.py:266-321). The bcrypt verifier
(passlib pwd_context.verify, an external library) is taken as the parameter
vp. The throttle check runs first; only an unblocked request evaluates
is_valid; an invalid login records a failure, a valid one clears the record
and issues a session token for the configured username. -/
def adminLoginPost (env : AdminEnv) (vp : String → String → Bool)
    (m : ThrottleMap) (client_ip : String) (now : ℚ)
    (username password : String) : LoginResult × ThrottleMap :=
  let chk := isLoginBlocked m client_ip now
  if chk.1 then (LoginResult.tooMany, chk.2)
  else
    let is_valid :=
      optStrTruthy env.admin_username && optStrTruthy env.admin_password_hash &&
      (username == env.admin_username.getD "") &&
      vp password (env.admin_password_hash.getD "")
    if !is_valid then (LoginResult.unauthorized, recordLoginFailure chk.2 client_ip now)
    else
      let m2 := clearLoginFailures chk.2 client_ip
      match create_admin_session_token env (env.admin_username.getD "") now with
      | none => (LoginResult.notConfigured, m2)
      | some tok => (LoginResult.success tok, m2)

/- ------------------------------------------------------------------ -/
/- Admin list endpoints (main.py:605-685)                              -/
/- ------------------------------------------------------------------ -/

inductive QueryResult (α : Type)
  | accepted (rows : α)
  | rejected
deriving DecidableEq

/-- FastAPI Query validation with ge/le bounds: an out-of-range value is
rejected with a 422 validation error before the handler body runs (FastAPI
and pydantic constrain the parameter, they do not clamp it). -/
def validateLimitParam (lo hi : Int) (limit : Int) : Option Int :=
  if lo ≤ limit ∧ limit ≤ hi then some limit else none

def insertLe {α : Type} (le : α → α → Bool) (x : α) : List α → List α
  | [] => [x]
  | y :: ys => if le x y then x :: y :: ys else y :: insertLe le x ys

/-- Insertion sort, used to model the ORDER BY clauses. -/
def sortLe {α : Type} (le : α → α → Bool) : List α → List α
  | [] => []
  | x :: xs => insertLe le x (sortLe le xs)

/-- ORDER BY s.started_at_ms DESC (Postgres places NULLs first under DESC). -/
def startedDescBefore (x y : MRSessionRow) : Bool :=
  match x.started_at_ms, y.started_at_ms with
  | none, _ => true
  | some _, none => false
  | some a, some b => decide (b ≤ a)

/-- ORDER BY timestamp_ms ASC NULLS LAST, id ASC. -/
def eventOrderBefore (x y : MRQuestionRow) : Bool :=
  match x.timestamp_ms, y.timestamp_ms with
  | none, none => decide (x.id ≤ y.id)
  | none, some _ => false
  | some _, none => true
  | some a, some b => if a = b then decide (x.id ≤ y.id) else decide (a ≤ b)

/-- One result row of GET /api/v1/mr/sessions/recent (main.py:613-629). -/
structure RecentSessionRow where
  device_id : String
  client_session_id : Nat
  mode : Option String
  difficulty : Option String
  started_at_ms : Option Nat
  ended_at_ms : Option Nat
  attempted : Option Nat
  correct : Option Nat
  avg_ms : Option Nat
  events_logged : Nat
deriving DecidableEq

/-- COUNT(q.id) of the LEFT JOIN on (device_id, client_session_id). -/
def eventsLoggedFor (qdb : List MRQuestionRow) (s : MRSessionRow) : Nat :=
  (qdb.filter fun q =>
    q.device_id == s.device_id && q.client_session_id == s.client_session_id).length

def recentRowOf (qdb : List MRQuestionRow) (s : MRSessionRow) : RecentSessionRow :=
  ⟨s.device_id, s.client_session_id, s.mode, s.difficulty, s.started_at_ms,
   s.ended_at_ms, s.attempted, s.correct, s.avg_ms, eventsLoggedFor qdb s⟩

/-- The SQL of GET /api/v1/mr/sessions/recent (main.py:613-640): optional
device filter guarded by `if device_id:` truthiness; LEFT JOIN event count;
ORDER BY started_at_ms DESC; LIMIT. -/
def recentQueryRows (sdb : List MRSessionRow) (qdb : List MRQuestionRow)
    (device_id : Option String) (l : Int) : List RecentSessionRow :=
  let base :=
    if optStrTruthy device_id then
      sdb.filter (fun s => s.device_id == device_id.getD "")
    else sdb
  ((sortLe startedDescBefore base).map (recentRowOf qdb)).take l.toNat

/-- GET /api/v1/mr/sessions/recent (main.py:605-644): the limit parameter is
validated by Query(ge=1, le=200) before the handler runs. -/
def mr_sessions_recent (sdb : List MRSessionRow) (qdb : List MRQuestionRow)
    (device_id : Option String) (limit : Int) : QueryResult (List RecentSessionRow) :=
  match validateLimitParam 1 200 limit with
  | none => QueryResult.rejected
  | some l => QueryResult.accepted (recentQueryRows sdb qdb device_id l)

/-- The SQL of GET /api/v1/mr/session/events (main.py:656-682): rows of the
(device_id, client_session_id) pair, ORDER BY timestamp_ms ASC NULLS LAST,
id ASC; LIMIT. -/
def sessionEventsQueryRows (qdb : List MRQuestionRow) (device_id : String)
    (client_session_id : Nat) (l : Int) : List MRQuestionRow :=
  (sortLe eventOrderBefore
    (qdb.filter fun q =>
      q.device_id == device_id && q.client_session_id == client_session_id)).take l.toNat

/-- GET /api/v1/mr/session/events (main.py:647-685): the limit parameter is
validated by Query(ge=1, le=200) before the handler runs. -/
def mr_session_events (qdb : List MRQuestionRow) (device_id : String)
    (client_session_id : Nat) (limit : Int) : QueryResult (List MRQuestionRow) :=
  match validateLimitParam 1 200 limit with
  | none => QueryResult.rejected
  | some l => QueryResult.accepted (sessionEventsQueryRows qdb device_id client_session_id l)

/- ================================================================== -/
/- Theorems                                                            -/
/- ================================================================== -/

/- Concrete payloads used by witnesses and counterexamples. -/

/-- An attempts payload carrying the dedup key K. -/
def attemptPayloadK : AttemptIn :=
  ⟨some "K", some "math_rush", 1, 1, none, none, none, none, none, none⟩

/-- An attempts payload carrying the empty-string dedup key. -/
def attemptPayloadEmptyKey : AttemptIn :=
  ⟨some "", some "math_rush", 1, 1, none, none, none, none, none, none⟩

/-- C1: the claim asks for an at-most-once guarantee backed by a uniqueness
constraint of the persistence layer. The code is the forbidden shape instead:
an application-level dedup SELECT followed by a plain INSERT (create_attempt,
main.py:426-472), and the ORM schema of attempts (db.py:201-221) declares no
uniqueness on the dedup key. Consequently the interleaving in which both
racing requests run their SELECT before either INSERT commits produces two
created (ok) outcomes and two stored rows for the same key K. -/
theorem C1_check_then_insert_race :
    hasUniqueConstraintOn attemptsTable "client_attempt_id" = false ∧
    attemptsTable.uniqueConstraints = [] ∧
    (raceCreateAttempt ⟨[], 0⟩ attemptPayloadK attemptPayloadK).1.status = AttemptStatus.ok ∧
    (raceCreateAttempt ⟨[], 0⟩ attemptPayloadK attemptPayloadK).2.1.status = AttemptStatus.ok ∧
    countAttemptKey (raceCreateAttempt ⟨[], 0⟩ attemptPayloadK attemptPayloadK).2.2.rows "K" = 2 := by
  decide

/-- C2 (amended): for a payload whose dedup key is a NON-EMPTY string not yet
stored, submitting it twice yields ok then duplicate, the same attempt_id both
times, no second insert, and exactly one stored row with that key. (As
written, with "non-null" in place of non-empty, the claim fails: see the
counterexample for the empty-string key.) -/
theorem C2_attempt_idempotent (st : AttemptsState) (p : AttemptIn) (k : String)
    (hk : p.client_attempt_id = some k) (hne : k ≠ "")
    (habs : countAttemptKey st.rows k = 0) :
    (create_attempt st p).1.status = AttemptStatus.ok ∧
    (create_attempt (create_attempt st p).2 p).1.status = AttemptStatus.duplicate ∧
    (create_attempt (create_attempt st p).2 p).1.attempt_id
      = (create_attempt st p).1.attempt_id ∧
    (create_attempt (create_attempt st p).2 p).2 = (create_attempt st p).2 ∧
    countAttemptKey (create_attempt (create_attempt st p).2 p).2.rows k = 1 := by
  have hT : optStrTruthy p.client_attempt_id = true := by
    rw [hk]; exact bne_iff_ne.mpr hne
  have hfilter : st.rows.filter (attemptRowMatchesKey k) = [] :=
    List.length_eq_zero.mp habs
  have hnone : st.rows.find? (attemptRowMatchesKey k) = none :=
    List.find?_eq_none.mpr (List.filter_eq_nil_iff.mp hfilter)
  have hl1 : attemptDedupLookup st.rows p = none := by
    simp [attemptDedupLookup, hT, hk, hnone]
  have e1 : create_attempt st p =
      (⟨AttemptStatus.ok, st.nextId⟩,
       ⟨st.rows ++ [attemptRowOf st.nextId p], st.nextId + 1⟩) := by
    simp [create_attempt, hl1, attemptInsert]
  have hrowkey : attemptRowMatchesKey k (attemptRowOf st.nextId p) = true := by
    simp [attemptRowMatchesKey, attemptRowOf, hk]
  have hl2 : attemptDedupLookup (st.rows ++ [attemptRowOf st.nextId p]) p
      = some st.nextId := by
    have hT' : optStrTruthy (some k) = true := by rw [hk] at hT; exact hT
    simp [attemptDedupLookup, hk, hT', List.find?_append, hnone, attemptRowMatchesKey,
      attemptRowOf]
  have e2 : create_attempt (create_attempt st p).2 p
      = (⟨AttemptStatus.duplicate, st.nextId⟩, (create_attempt st p).2) := by
    rw [e1]; simp [create_attempt, hl2]
  refine ⟨by rw [e1], by rw [e2], by rw [e2, e1], by rw [e2], ?_⟩
  rw [e2, e1]
  simp [countAttemptKey, List.filter_append, hfilter, hrowkey]

/-- Witness for C2: the amended claim evaluated on the key K from an empty
store. -/
theorem C2_attempt_idempotent_witness :
    (create_attempt ⟨[], 0⟩ attemptPayloadK).1.status = AttemptStatus.ok ∧
    (create_attempt (create_attempt ⟨[], 0⟩ attemptPayloadK).2 attemptPayloadK).1.status
      = AttemptStatus.duplicate ∧
    (create_attempt (create_attempt ⟨[], 0⟩ attemptPayloadK).2 attemptPayloadK).1.attempt_id
      = (create_attempt ⟨[], 0⟩ attemptPayloadK).1.attempt_id ∧
    (create_attempt (create_attempt ⟨[], 0⟩ attemptPayloadK).2 attemptPayloadK).2
      = (create_attempt ⟨[], 0⟩ attemptPayloadK).2 ∧
    countAttemptKey
      (create_attempt (create_attempt ⟨[], 0⟩ attemptPayloadK).2 attemptPayloadK).2.rows "K"
      = 1 :=
  C2_attempt_idempotent ⟨[], 0⟩ attemptPayloadK "K" rfl (by decide) (by decide)

/-- Counterexample to C2 as stated: the empty string is a non-null dedup key,
yet submitting the same payload twice inserts twice, answers ok (not
duplicate) the second time, returns two different attempt ids, and leaves two
rows with that key in storage. -/
theorem C2_counterexample_empty_key :
    (create_attempt (create_attempt ⟨[], 0⟩ attemptPayloadEmptyKey).2
        attemptPayloadEmptyKey).1.status = AttemptStatus.ok ∧
    (create_attempt (create_attempt ⟨[], 0⟩ attemptPayloadEmptyKey).2
        attemptPayloadEmptyKey).1.status ≠ AttemptStatus.duplicate ∧
    (create_attempt (create_attempt ⟨[], 0⟩ attemptPayloadEmptyKey).2
        attemptPayloadEmptyKey).1.attempt_id
      ≠ (create_attempt ⟨[], 0⟩ attemptPayloadEmptyKey).1.attempt_id ∧
    countAttemptKey
      (create_attempt (create_attempt ⟨[], 0⟩ attemptPayloadEmptyKey).2
        attemptPayloadEmptyKey).2.rows "" = 2 := by
  decide

/-- C10: a submission whose client_attempt_id is the empty string skips the
dedup lookup entirely (the code tests truthiness, and the empty string is
falsy), so it always inserts a fresh row that stores the empty-string key and
answers ok — for the attempts endpoint and the question-events endpoint
alike, whatever the current contents of the store. -/
theorem C10_empty_key_never_deduped (ast : AttemptsState) (p : AttemptIn)
    (qst : MRQuestionState) (q : MRQuestionIn)
    (hp : p.client_attempt_id = some "") (hq : q.client_attempt_id = some "") :
    create_attempt ast p =
      (⟨AttemptStatus.ok, ast.nextId⟩,
       ⟨ast.rows ++ [attemptRowOf ast.nextId p], ast.nextId + 1⟩) ∧
    (attemptRowOf ast.nextId p).client_attempt_id = some "" ∧
    mr_question qst q =
      (MRQuestionResponse.ok qst.nextId,
       ⟨qst.rows ++ [questionRowOf qst.nextId q], qst.nextId + 1⟩) ∧
    (questionRowOf qst.nextId q).client_attempt_id = some "" := by
  have hp' : optStrTruthy p.client_attempt_id = false := by rw [hp]; rfl
  have hq' : optStrTruthy q.client_attempt_id = false := by rw [hq]; rfl
  refine ⟨?_, by simp [attemptRowOf, hp], ?_, by simp [questionRowOf, hq]⟩
  · simp [create_attempt, attemptDedupLookup, hp', attemptInsert]
  · simp [mr_question, questionDedupLookup, hq']

/-- A question-events payload carrying the empty-string dedup key. -/
def questionPayloadEmptyKey : MRQuestionIn :=
  ⟨"d1", 1, some 2, some 3, some 5, some true, some 1200, some 1000, some ""⟩

/-- Witness for C10: both handlers evaluated on concrete empty-string-key
payloads over non-empty stores that already hold an empty-string-key row. -/
theorem C10_empty_key_never_deduped_witness :
    create_attempt ⟨[attemptRowOf 0 attemptPayloadEmptyKey], 1⟩ attemptPayloadEmptyKey =
      (⟨AttemptStatus.ok, 1⟩,
       ⟨[attemptRowOf 0 attemptPayloadEmptyKey, attemptRowOf 1 attemptPayloadEmptyKey], 2⟩) ∧
    (attemptRowOf 1 attemptPayloadEmptyKey).client_attempt_id = some "" ∧
    mr_question ⟨[questionRowOf 0 questionPayloadEmptyKey], 1⟩ questionPayloadEmptyKey =
      (MRQuestionResponse.ok 1,
       ⟨[questionRowOf 0 questionPayloadEmptyKey, questionRowOf 1 questionPayloadEmptyKey], 2⟩) ∧
    (questionRowOf 1 questionPayloadEmptyKey).client_attempt_id = some "" := by
  have h := C10_empty_key_never_deduped
    ⟨[attemptRowOf 0 attemptPayloadEmptyKey], 1⟩ attemptPayloadEmptyKey
    ⟨[questionRowOf 0 questionPayloadEmptyKey], 1⟩ questionPayloadEmptyKey rfl rfl
  simpa using h

/-- C3: on a session-start retry for a (device_id, client_session_id) pair
that already has a row, each optional field is updated only when the incoming
value is non-null and preserved otherwise (the COALESCE merge of
main.py:495-500); the key fields stay untouched. -/
theorem C3_session_start_merge (db : List MRSessionRow) (p : MRSessionStartIn)
    (r : MRSessionRow) (hm : r ∈ db)
    (hk : sessionMatches p.device_id p.client_session_id r = true) :
    (mr_session_start db p).1 = MRStatus.ok ∧
    mergeSessionStart r p ∈ (mr_session_start db p).2 ∧
    (p.mode = none → (mergeSessionStart r p).mode = r.mode) ∧
    (∀ v, p.mode = some v → (mergeSessionStart r p).mode = some v) ∧
    (p.difficulty = none → (mergeSessionStart r p).difficulty = r.difficulty) ∧
    (∀ v, p.difficulty = some v → (mergeSessionStart r p).difficulty = some v) ∧
    (p.count_target = none → (mergeSessionStart r p).count_target = r.count_target) ∧
    (∀ v, p.count_target = some v → (mergeSessionStart r p).count_target = some v) ∧
    (p.started_at_ms = none → (mergeSessionStart r p).started_at_ms = r.started_at_ms) ∧
    (∀ v, p.started_at_ms = some v → (mergeSessionStart r p).started_at_ms = some v) ∧
    (mergeSessionStart r p).device_id = r.device_id ∧
    (mergeSessionStart r p).client_session_id = r.client_session_id := by
  have hany : db.any (sessionMatches p.device_id p.client_session_id) = true :=
    List.any_eq_true.mpr ⟨r, hm, hk⟩
  refine ⟨by simp [mr_session_start, hany], ?_,
    fun h => by simp [mergeSessionStart, coalesceOpt, h],
    fun v h => by simp [mergeSessionStart, coalesceOpt, h],
    fun h => by simp [mergeSessionStart, coalesceOpt, h],
    fun v h => by simp [mergeSessionStart, coalesceOpt, h],
    fun h => by simp [mergeSessionStart, coalesceOpt, h],
    fun v h => by simp [mergeSessionStart, coalesceOpt, h],
    fun h => by simp [mergeSessionStart, coalesceOpt, h],
    fun v h => by simp [mergeSessionStart, coalesceOpt, h],
    rfl, rfl⟩
  simp only [mr_session_start, hany, if_true]
  exact List.mem_map.mpr ⟨r, hm, by simp [hk]⟩

/-- The session-start message of the worked example: mode add, difficulty
absent. -/
def sessionStartMsg1 : MRSessionStartIn := ⟨"d1", 1, some "add", none, some 20, some 1000⟩

/-- The retried session-start message: mode absent, difficulty hard. -/
def sessionStartMsg2 : MRSessionStartIn := ⟨"d1", 1, none, some "hard", none, none⟩

/-- Witness for C3: the claim's example — start with mode add then retry with
difficulty hard leaves the session with mode add and difficulty hard. -/
theorem C3_session_start_merge_witness :
    mergeSessionStart (newSessionRow sessionStartMsg1) sessionStartMsg2
      ∈ (mr_session_start (mr_session_start [] sessionStartMsg1).2 sessionStartMsg2).2 ∧
    (mergeSessionStart (newSessionRow sessionStartMsg1) sessionStartMsg2).mode = some "add" ∧
    (mergeSessionStart (newSessionRow sessionStartMsg1) sessionStartMsg2).difficulty
      = some "hard" := by
  obtain ⟨h1, h2, h3, h4, h5, h6, hrest⟩ :=
    C3_session_start_merge (mr_session_start [] sessionStartMsg1).2 sessionStartMsg2
      (newSessionRow sessionStartMsg1) (by decide) (by decide)
  exact ⟨h2, (h3 rfl).trans rfl, h6 "hard" rfl⟩

/-- C8: session-end is a successful no-op (status ok, not an error) when no
row matches the (device_id, client_session_id) key, and when a row matches,
the five summary fields are overwritten unconditionally with the supplied
values — nulls included (full overwrite, unlike session-start's merge). -/
theorem C8_session_end_semantics (db : List MRSessionRow) (p : MRSessionEndIn) :
    (mr_session_end db p).1 = MRStatus.ok ∧
    ((∀ r ∈ db, sessionMatches p.device_id p.client_session_id r = false) →
      (mr_session_end db p).2 = db) ∧
    (∀ r ∈ db, sessionMatches p.device_id p.client_session_id r = true →
      overwriteSessionEnd r p ∈ (mr_session_end db p).2 ∧
      (overwriteSessionEnd r p).ended_at_ms = p.ended_at_ms ∧
      (overwriteSessionEnd r p).attempted = p.attempted ∧
      (overwriteSessionEnd r p).correct = p.correct ∧
      (overwriteSessionEnd r p).avg_ms = p.avg_ms ∧
      (overwriteSessionEnd r p).duration_s = p.duration_s) := by
  refine ⟨rfl, ?_, ?_⟩
  · intro h
    simp only [mr_session_end]
    have hid : ∀ r ∈ db,
        (if sessionMatches p.device_id p.client_session_id r
         then overwriteSessionEnd r p else r) = id r := by
      intro r hr
      simp [h r hr]
    rw [List.map_congr_left hid, List.map_id]
  · intro r hr hk
    refine ⟨?_, rfl, rfl, rfl, rfl, rfl⟩
    simp only [mr_session_end]
    exact List.mem_map.mpr ⟨r, hr, by simp [hk]⟩

/-- A session-end message with a mix of supplied and null summary fields. -/
def sessionEndMsg : MRSessionEndIn := ⟨"d1", 1, some 5000, none, some 3, none, some 60⟩

/-- A previously stored session row whose summary fields are non-null. -/
def priorSessionRow : MRSessionRow :=
  ⟨"d1", 1, some "add", some "hard", some 20, some 1000, none, some 5, some 4, some 800, none⟩

/-- Witness for C8: ending with no matching row answers ok and changes
nothing; ending against a matching row overwrites, nulling attempted even
though the stored value was non-null. -/
theorem C8_session_end_semantics_witness :
    (mr_session_end [] sessionEndMsg).1 = MRStatus.ok ∧
    (mr_session_end [] sessionEndMsg).2 = [] ∧
    overwriteSessionEnd priorSessionRow sessionEndMsg
      ∈ (mr_session_end [priorSessionRow] sessionEndMsg).2 ∧
    (overwriteSessionEnd priorSessionRow sessionEndMsg).attempted = none ∧
    (overwriteSessionEnd priorSessionRow sessionEndMsg).ended_at_ms = some 5000 := by
  obtain ⟨a1, a2, _⟩ := C8_session_end_semantics [] sessionEndMsg
  obtain ⟨_, _, a3⟩ := C8_session_end_semantics [priorSessionRow] sessionEndMsg
  have h3 := a3 priorSessionRow (by simp) (by decide)
  exact ⟨a1, a2 (by simp), h3.1, h3.2.2.1, h3.2.1⟩

/-- C7 (amended): for a NON-EMPTY dedup key, the dedup scope is the
(device_id, key) pair — the same key from two different devices both insert
fresh rows and answer ok, while a resubmission with an already-recorded
(device_id, key) pair answers duplicate and leaves the store unchanged. (As
written, over every client-supplied key, the claim fails for the empty-string
key: see the counterexample.) -/
theorem C7_question_dedup_scope (st : MRQuestionState) (p1 p2 : MRQuestionIn) (k : String)
    (hk1 : p1.client_attempt_id = some k) (hk2 : p2.client_attempt_id = some k)
    (hne : k ≠ "") (hdev : p1.device_id ≠ p2.device_id)
    (habs1 : st.rows.find? (questionRowMatchesKey p1.device_id k) = none)
    (habs2 : st.rows.find? (questionRowMatchesKey p2.device_id k) = none) :
    (mr_question st p1).1 = MRQuestionResponse.ok st.nextId ∧
    (mr_question (mr_question st p1).2 p2).1 = MRQuestionResponse.ok (st.nextId + 1) ∧
    (mr_question (mr_question st p1).2 p2).2.rows.length = st.rows.length + 2 ∧
    mr_question (mr_question (mr_question st p1).2 p2).2 p1
      = (MRQuestionResponse.duplicate, (mr_question (mr_question st p1).2 p2).2) := by
  have hT : optStrTruthy (some k) = true := bne_iff_ne.mpr hne
  have hrow1self : questionRowMatchesKey p1.device_id k (questionRowOf st.nextId p1) = true := by
    simp [questionRowMatchesKey, questionRowOf, hk1]
  have hrow1other : questionRowMatchesKey p2.device_id k (questionRowOf st.nextId p1) = false := by
    simp [questionRowMatchesKey, questionRowOf]
    intro h
    exact absurd h hdev
  have hl1 : questionDedupLookup st.rows p1 = none := by
    simp [questionDedupLookup, hk1, hT, habs1]
  have e1 : mr_question st p1 =
      (MRQuestionResponse.ok st.nextId,
       ⟨st.rows ++ [questionRowOf st.nextId p1], st.nextId + 1⟩) := by
    simp [mr_question, hl1]
  have hl2 : questionDedupLookup (st.rows ++ [questionRowOf st.nextId p1]) p2 = none := by
    simp [questionDedupLookup, hk2, hT, List.find?_append, habs2, hrow1other]
  have e2 : mr_question (mr_question st p1).2 p2 =
      (MRQuestionResponse.ok (st.nextId + 1),
       ⟨(st.rows ++ [questionRowOf st.nextId p1]) ++ [questionRowOf (st.nextId + 1) p2],
        st.nextId + 2⟩) := by
    rw [e1]
    simp [mr_question, hl2]
  have hl3 : questionDedupLookup
      (st.rows ++ [questionRowOf st.nextId p1, questionRowOf (st.nextId + 1) p2]) p1
      = some (questionRowOf st.nextId p1) := by
    simp [questionDedupLookup, hk1, hT, List.find?_append, habs1, hrow1self]
  refine ⟨by rw [e1], by rw [e2], by rw [e2]; simp, ?_⟩
  rw [e2]
  simp [mr_question, hl3]

/-- A question event with dedup key Q1 from device d1. -/
def questionPayloadD1 : MRQuestionIn :=
  ⟨"d1", 1, some 2, some 3, some 5, some true, some 1200, some 1000, some "Q1"⟩

/-- The same dedup key Q1 sent from a different device d2. -/
def questionPayloadD2 : MRQuestionIn :=
  ⟨"d2", 1, some 2, some 3, some 6, some false, some 900, some 2000, some "Q1"⟩

/-- Witness for C7: key Q1 from d1 and from d2 both insert and answer ok;
resubmitting the d1 event answers duplicate without inserting. -/
theorem C7_question_dedup_scope_witness :
    (mr_question ⟨[], 0⟩ questionPayloadD1).1 = MRQuestionResponse.ok 0 ∧
    (mr_question (mr_question ⟨[], 0⟩ questionPayloadD1).2 questionPayloadD2).1
      = MRQuestionResponse.ok 1 ∧
    (mr_question (mr_question ⟨[], 0⟩ questionPayloadD1).2 questionPayloadD2).2.rows.length
      = 2 ∧
    mr_question
      (mr_question (mr_question ⟨[], 0⟩ questionPayloadD1).2 questionPayloadD2).2
      questionPayloadD1
      = (MRQuestionResponse.duplicate,
         (mr_question (mr_question ⟨[], 0⟩ questionPayloadD1).2 questionPayloadD2).2) := by
  have h := C7_question_dedup_scope ⟨[], 0⟩ questionPayloadD1 questionPayloadD2 "Q1"
    rfl rfl (by decide) (by decide) rfl rfl
  simpa using h

/-- Counterexample to C7 as stated: for the empty-string dedup key, a
resubmission with the same (device_id, key) pair answers ok, not duplicate,
and inserts a second row. -/
theorem C7_counterexample_empty_key :
    (mr_question (mr_question ⟨[], 0⟩ questionPayloadEmptyKey).2
        questionPayloadEmptyKey).1 = MRQuestionResponse.ok 1 ∧
    (mr_question (mr_question ⟨[], 0⟩ questionPayloadEmptyKey).2
        questionPayloadEmptyKey).1 ≠ MRQuestionResponse.duplicate ∧
    (mr_question (mr_question ⟨[], 0⟩ questionPayloadEmptyKey).2
        questionPayloadEmptyKey).2.rows.length = 2 := by
  decide

/- Helper lemmas on the throttle map. -/

theorem find?_map_update (m : ThrottleMap) (ip : String) (v : LoginEntry) :
    (m.map fun x => if x.1 == ip then (ip, v) else x).find? (fun e => e.1 == ip)
      = if m.any (fun e => e.1 == ip) then some (ip, v) else none := by
  induction m with
  | nil => rfl
  | cons e es ih =>
    cases he : (e.1 == ip) with
    | true =>
      have hhead : (if e.1 == ip then (ip, v) else e) = (ip, v) := by rw [he]; rfl
      rw [List.map_cons, hhead, List.find?_cons_of_pos, List.any_cons, he, Bool.true_or,
        if_pos rfl]
      exact beq_self_eq_true ip
    | false =>
      have hhead : (if e.1 == ip then (ip, v) else e) = e := by rw [he]; rfl
      rw [List.map_cons, hhead, List.find?_cons_of_neg, ih, List.any_cons, he,
        Bool.false_or]
      simp [he]

theorem throttleGet_set_same (m : ThrottleMap) (ip : String) (v : LoginEntry) :
    throttleGet (throttleSet m ip v) ip = some v := by
  unfold throttleSet throttleGet
  by_cases h : m.any (fun e => e.1 == ip) = true
  · rw [if_pos h, find?_map_update, if_pos h]
    rfl
  · rw [if_neg h]
    have hfind : m.find? (fun e => e.1 == ip) = none :=
      List.find?_eq_none.mpr fun x hx hp => h (List.any_eq_true.mpr ⟨x, hx, hp⟩)
    rw [List.find?_append, hfind, Option.none_or, List.find?_cons_of_pos]
    · rfl
    · exact beq_self_eq_true ip

theorem recordLoginFailure_get_absent (m : ThrottleMap) (ip : String) (now : ℚ)
    (hget : throttleGet m ip = none) :
    throttleGet (recordLoginFailure m ip now) ip = some ⟨[now], 0⟩ := by
  unfold recordLoginFailure
  rw [hget]
  simp [LOGIN_MAX_FAILURES, throttleGet_set_same]

theorem recordLoginFailure_get_existing (m : ThrottleMap) (ip : String) (now : ℚ)
    (e : LoginEntry) (hget : throttleGet m ip = some e)
    (hall : ∀ ts ∈ e.fails, now - LOGIN_WINDOW_SECONDS ≤ ts) :
    throttleGet (recordLoginFailure m ip now) ip =
      some ⟨e.fails ++ [now],
        if LOGIN_MAX_FAILURES ≤ e.fails.length + 1 then now + LOGIN_BLOCK_SECONDS
        else e.blocked_until⟩ := by
  unfold recordLoginFailure
  rw [hget]
  have hf : e.fails.filter (fun ts => decide (now - LOGIN_WINDOW_SECONDS ≤ ts)) = e.fails :=
    List.filter_eq_self.mpr fun a ha => decide_eq_true (hall a ha)
  simp only [Option.getD_some, hf, List.length_append, List.length_cons, List.length_nil,
    Nat.zero_add]
  rw [throttleGet_set_same]

/-- The throttle state after eight calls to record_failure for one key. -/
def throttleAfterEightFailures (ip : String) (t1 t2 t3 t4 t5 t6 t7 t8 : ℚ) : ThrottleMap :=
  recordLoginFailure (recordLoginFailure (recordLoginFailure (recordLoginFailure
    (recordLoginFailure (recordLoginFailure (recordLoginFailure (recordLoginFailure
      [] ip t1) ip t2) ip t3) ip t4) ip t5) ip t6) ip t7) ip t8

/-- C4: eight failures for one key at nondecreasing wall-clock times that all
lie within the trailing 15-minute window of the eighth (so none is pruned)
leave the record holding all eight timestamps with blocked_until equal to the
eighth failure time plus 15 minutes; is_blocked answers true strictly before
that instant and false from it on, and the past-due blocked_until is zeroed
as a side effect of the failed check. -/
theorem C4_login_throttle (ip : String) (t1 t2 t3 t4 t5 t6 t7 t8 : ℚ)
    (h0 : 0 ≤ t1) (h12 : t1 ≤ t2) (h23 : t2 ≤ t3) (h34 : t3 ≤ t4) (h45 : t4 ≤ t5)
    (h56 : t5 ≤ t6) (h67 : t6 ≤ t7) (h78 : t7 ≤ t8)
    (hwin : t8 - t1 ≤ LOGIN_WINDOW_SECONDS) :
    throttleGet (throttleAfterEightFailures ip t1 t2 t3 t4 t5 t6 t7 t8) ip
      = some ⟨[t1, t2, t3, t4, t5, t6, t7, t8], t8 + LOGIN_BLOCK_SECONDS⟩ ∧
    (∀ t : ℚ, t < t8 + LOGIN_BLOCK_SECONDS →
      (isLoginBlocked (throttleAfterEightFailures ip t1 t2 t3 t4 t5 t6 t7 t8) ip t).1
        = true) ∧
    (∀ t : ℚ, t8 + LOGIN_BLOCK_SECONDS ≤ t →
      (isLoginBlocked (throttleAfterEightFailures ip t1 t2 t3 t4 t5 t6 t7 t8) ip t).1
        = false ∧
      throttleGet
          ((isLoginBlocked (throttleAfterEightFailures ip t1 t2 t3 t4 t5 t6 t7 t8) ip t).2) ip
        = some ⟨[t1, t2, t3, t4, t5, t6, t7, t8], 0⟩) := by
  have hg1 : throttleGet (recordLoginFailure [] ip t1) ip = some ⟨[t1], 0⟩ :=
    recordLoginFailure_get_absent [] ip t1 rfl
  have hg2 : throttleGet (recordLoginFailure (recordLoginFailure [] ip t1) ip t2) ip
      = some ⟨[t1, t2], 0⟩ := by
    have hall : ∀ ts ∈ ([t1] : List ℚ), t2 - LOGIN_WINDOW_SECONDS ≤ ts := by
      intro ts hts
      simp only [List.mem_singleton] at hts
      subst hts; linarith
    simpa [LOGIN_MAX_FAILURES] using recordLoginFailure_get_existing _ ip t2 _ hg1 hall
  have hg3 : throttleGet (recordLoginFailure (recordLoginFailure (recordLoginFailure
      [] ip t1) ip t2) ip t3) ip = some ⟨[t1, t2, t3], 0⟩ := by
    have hall : ∀ ts ∈ ([t1, t2] : List ℚ), t3 - LOGIN_WINDOW_SECONDS ≤ ts := by
      intro ts hts
      simp only [List.mem_cons, List.mem_singleton, List.not_mem_nil, or_false] at hts
      rcases hts with rfl | rfl <;> linarith
    simpa [LOGIN_MAX_FAILURES] using recordLoginFailure_get_existing _ ip t3 _ hg2 hall
  have hg4 : throttleGet (recordLoginFailure (recordLoginFailure (recordLoginFailure
      (recordLoginFailure [] ip t1) ip t2) ip t3) ip t4) ip
      = some ⟨[t1, t2, t3, t4], 0⟩ := by
    have hall : ∀ ts ∈ ([t1, t2, t3] : List ℚ), t4 - LOGIN_WINDOW_SECONDS ≤ ts := by
      intro ts hts
      simp only [List.mem_cons, List.mem_singleton, List.not_mem_nil, or_false] at hts
      rcases hts with rfl | rfl | rfl <;> linarith
    simpa [LOGIN_MAX_FAILURES] using recordLoginFailure_get_existing _ ip t4 _ hg3 hall
  have hg5 : throttleGet (recordLoginFailure (recordLoginFailure (recordLoginFailure
      (recordLoginFailure (recordLoginFailure [] ip t1) ip t2) ip t3) ip t4) ip t5) ip
      = some ⟨[t1, t2, t3, t4, t5], 0⟩ := by
    have hall : ∀ ts ∈ ([t1, t2, t3, t4] : List ℚ), t5 - LOGIN_WINDOW_SECONDS ≤ ts := by
      intro ts hts
      simp only [List.mem_cons, List.mem_singleton, List.not_mem_nil, or_false] at hts
      rcases hts with rfl | rfl | rfl | rfl <;> linarith
    simpa [LOGIN_MAX_FAILURES] using recordLoginFailure_get_existing _ ip t5 _ hg4 hall
  have hg6 : throttleGet (recordLoginFailure (recordLoginFailure (recordLoginFailure
      (recordLoginFailure (recordLoginFailure (recordLoginFailure [] ip t1) ip t2) ip t3)
        ip t4) ip t5) ip t6) ip = some ⟨[t1, t2, t3, t4, t5, t6], 0⟩ := by
    have hall : ∀ ts ∈ ([t1, t2, t3, t4, t5] : List ℚ), t6 - LOGIN_WINDOW_SECONDS ≤ ts := by
      intro ts hts
      simp only [List.mem_cons, List.mem_singleton, List.not_mem_nil, or_false] at hts
      rcases hts with rfl | rfl | rfl | rfl | rfl <;> linarith
    simpa [LOGIN_MAX_FAILURES] using recordLoginFailure_get_existing _ ip t6 _ hg5 hall
  have hg7 : throttleGet (recordLoginFailure (recordLoginFailure (recordLoginFailure
      (recordLoginFailure (recordLoginFailure (recordLoginFailure (recordLoginFailure
        [] ip t1) ip t2) ip t3) ip t4) ip t5) ip t6) ip t7) ip
      = some ⟨[t1, t2, t3, t4, t5, t6, t7], 0⟩ := by
    have hall : ∀ ts ∈ ([t1, t2, t3, t4, t5, t6] : List ℚ),
        t7 - LOGIN_WINDOW_SECONDS ≤ ts := by
      intro ts hts
      simp only [List.mem_cons, List.mem_singleton, List.not_mem_nil, or_false] at hts
      rcases hts with rfl | rfl | rfl | rfl | rfl | rfl <;> linarith
    simpa [LOGIN_MAX_FAILURES] using recordLoginFailure_get_existing _ ip t7 _ hg6 hall
  have hg8 : throttleGet (throttleAfterEightFailures ip t1 t2 t3 t4 t5 t6 t7 t8) ip
      = some ⟨[t1, t2, t3, t4, t5, t6, t7, t8], t8 + LOGIN_BLOCK_SECONDS⟩ := by
    have hall : ∀ ts ∈ ([t1, t2, t3, t4, t5, t6, t7] : List ℚ),
        t8 - LOGIN_WINDOW_SECONDS ≤ ts := by
      intro ts hts
      simp only [List.mem_cons, List.mem_singleton, List.not_mem_nil, or_false] at hts
      rcases hts with rfl | rfl | rfl | rfl | rfl | rfl | rfl <;> linarith
    simpa [throttleAfterEightFailures, LOGIN_MAX_FAILURES] using
      recordLoginFailure_get_existing _ ip t8 _ hg7 hall
  refine ⟨hg8, ?_, ?_⟩
  · intro t ht
    simp [isLoginBlocked, hg8, ht]
  · intro t ht
    have hnotlt : ¬ (t < t8 + LOGIN_BLOCK_SECONDS) := not_lt.mpr ht
    have hBpos : (0 : ℚ) < LOGIN_BLOCK_SECONDS := by norm_num [LOGIN_BLOCK_SECONDS]
    have hne : t8 + LOGIN_BLOCK_SECONDS ≠ 0 := by
      have h8 : 0 ≤ t8 := by linarith
      exact ne_of_gt (by linarith)
    constructor
    · simp [isLoginBlocked, hg8, hnotlt, hne]
    · simp [isLoginBlocked, hg8, hnotlt, hne, throttleGet_set_same]

/-- Witness for C4: eight failures at seconds 0..7 for key 1.2.3.4, checked
while blocked (t = 100) and after the block expires (t = 907). -/
theorem C4_login_throttle_witness :
    throttleGet (throttleAfterEightFailures "1.2.3.4" 0 1 2 3 4 5 6 7) "1.2.3.4"
      = some ⟨[0, 1, 2, 3, 4, 5, 6, 7], 7 + LOGIN_BLOCK_SECONDS⟩ ∧
    (isLoginBlocked (throttleAfterEightFailures "1.2.3.4" 0 1 2 3 4 5 6 7) "1.2.3.4" 100).1
      = true ∧
    (isLoginBlocked (throttleAfterEightFailures "1.2.3.4" 0 1 2 3 4 5 6 7) "1.2.3.4" 907).1
      = false ∧
    throttleGet
        ((isLoginBlocked (throttleAfterEightFailures "1.2.3.4" 0 1 2 3 4 5 6 7)
          "1.2.3.4" 907).2) "1.2.3.4"
      = some ⟨[0, 1, 2, 3, 4, 5, 6, 7], 0⟩ := by
  obtain ⟨hg, hb, hu⟩ := C4_login_throttle "1.2.3.4" 0 1 2 3 4 5 6 7
    (by norm_num) (by norm_num) (by norm_num) (by norm_num) (by norm_num)
    (by norm_num) (by norm_num) (by norm_num) (by norm_num [LOGIN_WINDOW_SECONDS])
  have h907 := hu 907 (by norm_num [LOGIN_BLOCK_SECONDS])
  exact ⟨hg, hb 100 (by norm_num [LOGIN_BLOCK_SECONDS]), h907.1, h907.2⟩

/-- C9: when the client key is blocked, the login handler answers 429
(tooMany) immediately. The right-hand side depends on neither the credential
verifier vp nor the submitted username and password, so a blocked caller
never triggers a credential check. -/
theorem C9_blocked_before_credential_check (env : AdminEnv) (vp : String → String → Bool)
    (m : ThrottleMap) (ip : String) (now : ℚ) (username password : String)
    (hb : (isLoginBlocked m ip now).1 = true) :
    adminLoginPost env vp m ip now username password
      = (LoginResult.tooMany, (isLoginBlocked m ip now).2) := by
  simp [adminLoginPost, hb]

/-- A throttle map in which key 1.2.3.4 is blocked until second 908. -/
def blockedMap : ThrottleMap := [("1.2.3.4", ⟨[1, 2, 3, 4, 5, 6, 7, 8], 908⟩)]

/-- Witness for C9: a blocked concrete request gets tooMany regardless of the
supplied credentials. -/
theorem C9_blocked_before_credential_check_witness :
    (isLoginBlocked blockedMap "1.2.3.4" 100).1 = true ∧
    adminLoginPost ⟨some "admin", some "hash", some "sek"⟩ (fun _ _ => true)
        blockedMap "1.2.3.4" 100 "admin" "pw"
      = (LoginResult.tooMany, (isLoginBlocked blockedMap "1.2.3.4" 100).2) :=
  ⟨by decide,
   C9_blocked_before_credential_check ⟨some "admin", some "hash", some "sek"⟩
     (fun _ _ => true) blockedMap "1.2.3.4" 100 "admin" "pw" (by decide)⟩

/-- C5: with the secret and admin username configured, a freshly issued token
verifies (round trip); a token whose signature is not the correct MAC of its
own contents is rejected; a genuinely signed token older than the 7-day
max-age is rejected; and both failure causes produce the identical uniform
result (false), so a caller cannot tell why a token failed. -/
theorem C5_token_round_trip (env : AdminEnv) (secret expected : String) (now : ℚ)
    (hs : env.session_secret_key = some secret) (hsne : secret ≠ "")
    (hu : env.admin_username = some expected) (hune : expected ≠ "") :
    (create_admin_session_token env expected now
        = some (serializerDumps secret (TokenPayload.dict (some expected)) now) ∧
      verify_admin_session_token env
        (serializerDumps secret (TokenPayload.dict (some expected)) now) now = true) ∧
    (∀ tok : SignedToken,
      tok.sig ≠ macSign secret "admin-session" tok.payload tok.issued_at →
      verify_admin_session_token env tok now = false) ∧
    (∀ t0 : ℚ, ∀ u : String, now - t0 > ADMIN_SESSION_MAX_AGE_SECONDS →
      verify_admin_session_token env
        (serializerDumps secret (TokenPayload.dict (some u)) t0) now = false) ∧
    (∀ tok : SignedToken, ∀ t0 : ℚ, ∀ u : String,
      tok.sig ≠ macSign secret "admin-session" tok.payload tok.issued_at →
      now - t0 > ADMIN_SESSION_MAX_AGE_SECONDS →
      verify_admin_session_token env tok now
        = verify_admin_session_token env
            (serializerDumps secret (TokenPayload.dict (some u)) t0) now) := by
  have hkey : adminSessionSerializerKey env = some secret := by
    simp [adminSessionSerializerKey, hs, optStrTruthy, hsne]
  have hutruthy : optStrTruthy env.admin_username = true := by
    rw [hu]; exact bne_iff_ne.mpr hune
  have hutruthy2 : optStrTruthy (some expected) = true := bne_iff_ne.mpr hune
  have hage : (0 : ℚ) ≤ ADMIN_SESSION_MAX_AGE_SECONDS := by
    norm_num [ADMIN_SESSION_MAX_AGE_SECONDS]
  have hround : verify_admin_session_token env
      (serializerDumps secret (TokenPayload.dict (some expected)) now) now = true := by
    simp [verify_admin_session_token, hkey, hutruthy2, serializerDumps, serializerLoads,
      hage, hu, sub_self]
  have hbad : ∀ tok : SignedToken,
      tok.sig ≠ macSign secret "admin-session" tok.payload tok.issued_at →
      verify_admin_session_token env tok now = false := by
    intro tok hsig
    simp [verify_admin_session_token, hkey, hutruthy, serializerLoads, hsig]
  have hexp : ∀ t0 : ℚ, ∀ u : String, now - t0 > ADMIN_SESSION_MAX_AGE_SECONDS →
      verify_admin_session_token env
        (serializerDumps secret (TokenPayload.dict (some u)) t0) now = false := by
    intro t0 u h
    have hn : ¬ (now - t0 ≤ ADMIN_SESSION_MAX_AGE_SECONDS) := not_le.mpr h
    simp [verify_admin_session_token, hkey, hutruthy, serializerDumps, serializerLoads, hn]
  refine ⟨⟨by simp [create_admin_session_token, hkey], hround⟩, hbad, hexp, ?_⟩
  intro tok t0 u h1 h2
  rw [hbad tok h1, hexp t0 u h2]

/-- The configured environment used by the token witness. -/
def adminEnv0 : AdminEnv := ⟨some "admin", some "hash", some "sek"⟩

/-- A token whose signature was produced with a different secret: its tag is
not the MAC of its own contents under the server secret. -/
def tokTampered : SignedToken :=
  ⟨TokenPayload.dict (some "admin"), 700000,
   macSign "other" "admin-session" (TokenPayload.dict (some "admin")) 700000⟩

/-- Witness for C5: concrete round trip at second 700000, a tampered token
rejected, and a token issued at second 0 rejected as expired. -/
theorem C5_token_round_trip_witness :
    create_admin_session_token adminEnv0 "admin" 700000
      = some (serializerDumps "sek" (TokenPayload.dict (some "admin")) 700000) ∧
    verify_admin_session_token adminEnv0
      (serializerDumps "sek" (TokenPayload.dict (some "admin")) 700000) 700000 = true ∧
    verify_admin_session_token adminEnv0 tokTampered 700000 = false ∧
    verify_admin_session_token adminEnv0
      (serializerDumps "sek" (TokenPayload.dict (some "admin")) 0) 700000 = false := by
  obtain ⟨⟨r1, r2⟩, hbad, hexp, _⟩ :=
    C5_token_round_trip adminEnv0 "sek" "admin" 700000 rfl (by decide) rfl (by decide)
  exact ⟨r1, r2, hbad tokTampered (by decide),
    hexp 0 "admin" (by norm_num [ADMIN_SESSION_MAX_AGE_SECONDS])⟩

/-- C6 (amended): the limit argument of both list endpoints is VALIDATED to
[1, 200], not clamped — an out-of-range limit is rejected with a 422
validation error before the handler runs (the query does not succeed), while
an in-range limit is passed through unchanged, so a successful query returns
at most 200 rows. -/
theorem C6_limit_validated_not_clamped (sdb : List MRSessionRow) (qdb : List MRQuestionRow)
    (device_id : Option String) (dev : String) (csid : Nat) (limit : Int) :
    ((limit < 1 ∨ 200 < limit) →
      mr_sessions_recent sdb qdb device_id limit = QueryResult.rejected ∧
      mr_session_events qdb dev csid limit = QueryResult.rejected) ∧
    (1 ≤ limit → limit ≤ 200 →
      mr_sessions_recent sdb qdb device_id limit
          = QueryResult.accepted (recentQueryRows sdb qdb device_id limit) ∧
      (recentQueryRows sdb qdb device_id limit).length ≤ 200 ∧
      mr_session_events qdb dev csid limit
          = QueryResult.accepted (sessionEventsQueryRows qdb dev csid limit) ∧
      (sessionEventsQueryRows qdb dev csid limit).length ≤ 200) := by
  constructor
  · intro h
    have hcond : ¬ (1 ≤ limit ∧ limit ≤ 200) := by omega
    have hv : validateLimitParam 1 200 limit = none := by
      simp [validateLimitParam, hcond]
    exact ⟨by simp [mr_sessions_recent, hv], by simp [mr_session_events, hv]⟩
  · intro h1 h2
    have hv : validateLimitParam 1 200 limit = some limit := by
      simp [validateLimitParam, h1, h2]
    have htake : limit.toNat ≤ 200 := by omega
    refine ⟨by simp [mr_sessions_recent, hv], ?_, by simp [mr_session_events, hv], ?_⟩
    · exact le_trans (List.length_take_le _ _) htake
    · exact le_trans (List.length_take_le _ _) htake

/-- Counterexample to C6 as stated: limit 201 on the recent-sessions endpoint
and limit 0 on the session-events endpoint are not brought into [1, 200] —
the queries do not succeed at all; both requests are rejected by validation. -/
theorem C6_counterexample_out_of_range_rejected :
    mr_sessions_recent [] [] none 201 = QueryResult.rejected ∧
    (¬ ∃ rows, mr_sessions_recent [] [] none 201 = QueryResult.accepted rows) ∧
    mr_session_events [] "d1" 1 0 = QueryResult.rejected ∧
    (¬ ∃ rows, mr_session_events [] "d1" 1 0 = QueryResult.accepted rows) := by
  refine ⟨by decide, ?_, by decide, ?_⟩
  · rintro ⟨rows, h⟩
    rw [show mr_sessions_recent [] [] none 201 = QueryResult.rejected by decide] at h
    exact QueryResult.noConfusion h
  · rintro ⟨rows, h⟩
    rw [show mr_session_events [] "d1" 1 0 = QueryResult.rejected by decide] at h
    exact QueryResult.noConfusion h

/-- Witness for C6: a rejected out-of-range limit and accepted in-range
limits on both endpoints. -/
theorem C6_limit_validated_not_clamped_witness :
    mr_sessions_recent [] [] none 201 = QueryResult.rejected ∧
    mr_sessions_recent [] [] none 50
        = QueryResult.accepted (recentQueryRows [] [] none 50) ∧
    (recentQueryRows [] [] none 50).length ≤ 200 ∧
    mr_session_events [] "d1" 1 200
        = QueryResult.accepted (sessionEventsQueryRows [] "d1" 1 200) ∧
    (sessionEventsQueryRows [] "d1" 1 200).length ≤ 200 := by
  obtain ⟨hrej, _⟩ := C6_limit_validated_not_clamped [] [] none "d1" 1 201
  obtain ⟨_, hacc50⟩ := C6_limit_validated_not_clamped [] [] none "d1" 1 50
  obtain ⟨_, hacc200⟩ := C6_limit_validated_not_clamped [] [] none "d1" 1 200
  obtain ⟨a1, a2, _, _⟩ := hacc50 (by norm_num) (by norm_num)
  obtain ⟨_, _, a3, a4⟩ := hacc200 (by norm_num) (by norm_num)
  exact ⟨(hrej (by norm_num)).1, a1, a2, a3, a4⟩

end FluencySite
